import Mathlib

/-!
# DexKit JNI bridge: loader-based construction

A shallow embedding of `Android/dexkit/src/main/cpp/native-bridge.cpp`
(`IsDexFile`, `init`, `Java_io_luckypray_dexkit_DexKitBridge_nativeInitDexKitByClassLoader`)
and theorems about the class-loader walk.

Modelling conventions

* A native pointer is a `Nat` address; process memory is a byte map `Nat → Nat`.
* A managed reference that may be `null` is an `Option`.
* A cookie slot (`const DexFile *`) is `Option DexFile`: `none` is `nullptr`,
  `some d` is a pointer to a descriptor whose fields are `d`.
* `std::string` is a `List Char`, one `Char` per C `char`.
* `size_t` arithmetic is done modulo `2 ^ size_bits`; `size_bits` is 64 on the
  64-bit ABIs and 32 on the 32-bit ones.
* Indexing the cookie buffer past its end is undefined behaviour; the model
  returns `none` for the whole computation there.
* Calls that acquire or release a JNI view are counted in ghost fields.
-/

namespace DexKit

/-! ## Data model -/

/-- Native descriptor `struct DexFile` (lines 22-27): `begin_` and `size_`. -/
structure DexFile where
  begin_ : Nat
  size_ : Nat
  deriving DecidableEq, Repr

/-- An image span, `std::pair<const void *, size_t>`. -/
abbrev Span := Nat × Nat

/-- Managed `dalvik.system.DexFile` object: the fields `mCookie` (a `long[]`
read as an array of descriptor pointers) and `mFileName`. -/
structure JavaDexFile where
  mCookie : Option (List (Option DexFile))
  mFileName : Option (List Char)
  deriving DecidableEq

/-- Managed `DexPathList$Element` object: the field `dexFile`. -/
structure Element where
  dexFile : Option JavaDexFile
  deriving DecidableEq

/-- Managed `DexPathList` object: the field `dexElements`. -/
structure DexPathList where
  dexElements : Option (List (Option Element))
  deriving DecidableEq

/-- Managed `BaseDexClassLoader` object: the field `pathList`. -/
structure ClassLoader where
  pathList : Option DexPathList
  deriving DecidableEq

/-- Modelled from the spec: the engine class `dexkit::DexKit` is declared in
`dex_kit.h`, which is not among the sources. Its construction entry point
accepts either a filesystem path (line 146) or a list of image spans
(line 148). -/
inductive Engine where
  | fromPath (apk_path : List Char)
  | fromImages (images : List Span)
  deriving DecidableEq

/-! ## `IsDexFile` (lines 29-36) -/

/-- Modelled from the spec: `dex::Header` is declared in `dex_kit.h`, which is
not among the sources. Following the data model (the magic is the first four
bytes of a DEX image), `header->magic[i]` is the byte at address `image + i`. -/
def magic (mem : Nat → Nat) (image : Nat) (i : Nat) : Nat :=
  mem (image + i)

/-- `IsDexFile(image)` (lines 29-36): the magic is `'d' 'e' 'x' '\n'`
(in bytes 100, 101, 120, 10). -/
def IsDexFile (mem : Nat → Nat) (image : Nat) : Bool :=
  if magic mem image 0 = 100 ∧ magic mem image 1 = 101 ∧
      magic mem image 2 = 120 ∧ magic mem image 3 = 10 then
    true
  else
    false

/-! ## Field cache and `init` (lines 15-20, 38-56) -/

/-- The part of `JNIEnv` that `init` uses: `FindClass` and `GetFieldID`,
returning opaque handles (`0` when the lookup fails). -/
structure Env where
  FindClass : String → Nat
  GetFieldID : Nat → String → String → Nat

/-- The file-scope statics of lines 15-20, with a ghost counter of the
`FindClass`/`GetFieldID` calls made so far. -/
structure Globals where
  path_list_field : Nat
  element_field : Nat
  dex_file_field : Nat
  cookie_field : Nat
  file_name_field : Nat
  is_initialized : Bool
  lookups : Nat
  deriving DecidableEq

/-- The statics as the program starts: all handles `nullptr`, flag `false`. -/
def Globals.initial : Globals :=
  { path_list_field := 0, element_field := 0, dex_file_field := 0,
    cookie_field := 0, file_name_field := 0, is_initialized := false, lookups := 0 }

/-- `init(env)` (lines 38-56). -/
def init (env : Env) (g : Globals) : Globals :=
  if g.is_initialized then
    g
  else
    let dex_class_loader := env.FindClass "dalvik/system/BaseDexClassLoader"
    let path_list_field :=
      env.GetFieldID dex_class_loader "pathList" "Ldalvik/system/DexPathList;"
    let dex_path_list := env.FindClass "dalvik/system/DexPathList"
    let element_field :=
      env.GetFieldID dex_path_list "dexElements" "[Ldalvik/system/DexPathList$Element;"
    let element := env.FindClass "dalvik/system/DexPathList$Element"
    let dex_file_field := env.GetFieldID element "dexFile" "Ldalvik/system/DexFile;"
    let dex_file := env.FindClass "dalvik/system/DexFile"
    let cookie_field := env.GetFieldID dex_file "mCookie" "Ljava/lang/Object;"
    let file_name_field := env.GetFieldID dex_file "mFileName" "Ljava/lang/String;"
    { path_list_field := path_list_field, element_field := element_field,
      dex_file_field := dex_file_field, cookie_field := cookie_field,
      file_name_field := file_name_field, is_initialized := true,
      lookups := g.lookups + 9 }

/-- The statics after a run of `init` calls, one per environment, in order. -/
def initCalls (envs : List Env) (g : Globals) : Globals :=
  envs.foldl (fun s env => init env s) g

/-! ## The `.apk` test (lines 128-131) -/

/-- `std::string::npos` for a `size_t` of `size_bits` bits. -/
def npos (size_bits : Nat) : Nat := 2 ^ size_bits - 1

/-- Subtraction of `size_t` values, wrapping modulo `2 ^ size_bits`. -/
def size_sub (size_bits a b : Nat) : Nat :=
  (a % 2 ^ size_bits + (2 ^ size_bits - b % 2 ^ size_bits)) % 2 ^ size_bits

/-- `std::string::find(needle)` scanning from offset `pos`: the lowest
position at which `needle` occurs, or `npos` when it does not occur. -/
def find (size_bits : Nat) (needle : List Char) : List Char → Nat → Nat
  | [], pos => if needle.isPrefixOf [] then pos else npos size_bits
  | c :: cs, pos =>
    if needle.isPrefixOf (c :: cs) then pos else find size_bits needle cs (pos + 1)

/-- The condition of line 129: `path.find(".apk") == path.size() - 4`. -/
def apkTest (size_bits : Nat) (path : List Char) : Bool :=
  find size_bits ['.', 'a', 'p', 'k'] path 0 == size_sub size_bits path.length 4

/-! ## The cookie scan (lines 99-122) -/

/-- The `while (dex_file_length-- > 1)` loop of lines 105-121. The first
argument is `dex_file_length` on entry to the loop test, the second is
`dex_images`. -/
def scanLoop (mem : Nat → Nat) (dex_files : List (Option DexFile)) :
    Nat → List Span → Option (List Span)
  | 0, dex_images => some dex_images
  | n + 1, dex_images =>
    if n + 1 > 1 then
      match dex_files[n]? with
      | none => none
      | some none => scanLoop mem dex_files n []
      | some (some dex_file) =>
        if !IsDexFile mem dex_file.begin_ then
          some []
        else
          scanLoop mem dex_files n (dex_images ++ [(dex_file.begin_, dex_file.size_)])
    else
      some dex_images

/-- Lines 99-122: the sentinel read `dex_files[0]` followed by the loop.
The result is the scratch vector `dex_images`. -/
def scanCookie (mem : Nat → Nat) (cookie : List (Option DexFile)) : Option (List Span) :=
  match cookie[0]? with
  | none => none
  | some (some _) => some []
  | some none => scanLoop mem cookie cookie.length []

/-! ## The walk (lines 86-139) -/

/-- The accumulators of the walk, with ghost counts of the JNI views that
are outstanding (acquired and not yet released). -/
structure WalkState where
  images : List Span
  apk_path : List Char
  array_views : Nat
  string_views : Nat
  deriving DecidableEq

/-- The accumulators at line 88, before the first element. -/
def WalkState.initial : WalkState :=
  { images := [], apk_path := [], array_views := 0, string_views := 0 }

/-- One iteration of the `for` loop over `elements` (lines 90-138). -/
def processElement (size_bits : Nat) (mem : Nat → Nat) (st : WalkState)
    (element : Option Element) : Option WalkState :=
  match element with
  | none => some st
  | some element =>
    match element.dexFile with
    | none => some st
    | some java_dex_file =>
      match java_dex_file.mCookie with
      | none => some st
      | some cookie =>
        -- line 101: GetLongArrayElements
        let st := { st with array_views := st.array_views + 1 }
        match scanCookie mem cookie with
        | none => none
        | some dex_images =>
          if dex_images.isEmpty && st.apk_path.isEmpty then
            match java_dex_file.mFileName with
            | none => some st
            | some path =>
              -- line 126: GetStringUTFChars
              let st := { st with string_views := st.string_views + 1 }
              let st :=
                if apkTest size_bits path then { st with apk_path := path } else st
              -- line 132: ReleaseStringUTFChars
              some { st with string_views := st.string_views - 1 }
          else
            some { st with images := st.images ++ dex_images }

/-- The `for` loop of lines 89-139 over the element array. -/
def walk (size_bits : Nat) (mem : Nat → Nat) :
    List (Option Element) → WalkState → Option WalkState
  | [], st => some st
  | element :: rest, st =>
    match processElement size_bits mem st element with
    | none => none
    | some st => walk size_bits mem rest st

/-! ## Dispatch and the entry point (lines 72-149) -/

/-- Lines 140-148. The returned handle is `none` for `return 0` and
`some e` for `(jlong) new dexkit::DexKit(...)`, which is never zero. -/
def dispatch (images : List Span) (apk_path : List Char) : Option Engine :=
  if images.isEmpty then
    if apk_path.isEmpty then
      none
    else
      some (Engine.fromPath apk_path)
  else
    some (Engine.fromImages images)

/-- What a call of the entry point leaves behind: the returned handle, the
statics, and the ghost counts of outstanding JNI views. -/
structure Outcome where
  handle : Option Engine
  globals : Globals
  array_views : Nat
  string_views : Nat
  deriving DecidableEq

/-- `Java_io_luckypray_dexkit_DexKitBridge_nativeInitDexKitByClassLoader`
(lines 72-149). The object graph reached through `GetObjectField` is given
by `class_loader`. -/
def Java_io_luckypray_dexkit_DexKitBridge_nativeInitDexKitByClassLoader
    (size_bits : Nat) (mem : Nat → Nat) (env : Env)
    (g : Globals) (class_loader : Option ClassLoader) : Option Outcome :=
  match class_loader with
  | none => some { handle := none, globals := g, array_views := 0, string_views := 0 }
  | some class_loader =>
    let g := init env g
    match class_loader.pathList with
    | none => some { handle := none, globals := g, array_views := 0, string_views := 0 }
    | some path_list =>
      match path_list.dexElements with
      | none => some { handle := none, globals := g, array_views := 0, string_views := 0 }
      | some elements =>
        match walk size_bits mem elements WalkState.initial with
        | none => none
        | some st =>
          some { handle := dispatch st.images st.apk_path, globals := g,
                 array_views := st.array_views, string_views := st.string_views }

/-! ## Reference definitions used in the statements -/

/-- The span `(begin_, size_)` that line 119 pushes for a descriptor. -/
def toSpan (d : DexFile) : Span := (d.begin_, d.size_)

/-- The spans of the cookie slots `hi - 1` down to `1`, highest slot first;
a null slot gives no span. -/
def spansBelow (cookie : List (Option DexFile)) (hi : Nat) : List Span :=
  ((cookie.take hi).drop 1).reverse.filterMap (Option.map toSpan)

/-- The cookie of an element, empty when the element, its dex file or its
cookie is null. -/
def cookieOf (element : Option Element) : List (Option DexFile) :=
  match element with
  | some { dexFile := some { mCookie := some cookie, .. } } => cookie
  | _ => []

/-- The loop body of `scanLoop` replayed over the slots in the order the loop
visits them (used in proofs only). -/
def scanSlots (mem : Nat → Nat) : List (Option DexFile) → List Span → List Span
  | [], dex_images => dex_images
  | none :: slots, _ => scanSlots mem slots []
  | some dex_file :: slots, dex_images =>
    if !IsDexFile mem dex_file.begin_ then
      []
    else
      scanSlots mem slots (dex_images ++ [(dex_file.begin_, dex_file.size_)])

/-- The name ends in the four characters `.apk`. -/
def endsWithApk (name : List Char) : Bool :=
  ['.', 'a', 'p', 'k'].isSuffixOf name

/-- The element reaches line 101: it, its dex file and its cookie are non-null. -/
def hasCookie (element : Option Element) : Bool :=
  match element with
  | some { dexFile := some { mCookie := some _, .. } } => true
  | _ => false

/-! ## Concrete inputs -/

/-- A memory with standard DEX headers at 1000, 2000 and 3000 and a compact
DEX header (`cdex`) at 4000. -/
def exampleMem (a : Nat) : Nat :=
  if a < 4000 then
    match a % 1000 with
    | 0 => 100
    | 1 => 101
    | 2 => 120
    | 3 => 10
    | _ => 0
  else
    match a % 1000 with
    | 0 => 99
    | 1 => 100
    | 2 => 101
    | 3 => 120
    | _ => 0

/-- Standard DEX descriptor `D1`. -/
def D1 : DexFile := { begin_ := 1000, size_ := 11 }

/-- Standard DEX descriptor `D2`. -/
def D2 : DexFile := { begin_ := 2000, size_ := 22 }

/-- Standard DEX descriptor `D3`. -/
def D3 : DexFile := { begin_ := 3000, size_ := 33 }

/-- Compact DEX descriptor `Dc`. -/
def Dc : DexFile := { begin_ := 4000, size_ := 44 }

/-- An element with a non-null dex file holding the given cookie and name. -/
def elementOf (cookie : List (Option DexFile)) (name : Option (List Char)) :
    Option Element :=
  some { dexFile := some { mCookie := some cookie, mFileName := name } }

/-- A class loader whose path list holds the given element array. -/
def loaderOf (elements : List (Option Element)) : Option ClassLoader :=
  some { pathList := some { dexElements := some elements } }

/-- A runtime in which every lookup succeeds. -/
def envOk : Env := { FindClass := fun _ => 7, GetFieldID := fun c _ _ => c + 1 }

/-- A runtime in which every lookup fails. -/
def envFail : Env := { FindClass := fun _ => 0, GetFieldID := fun _ _ _ => 0 }

/-! ## Lemmas on the cookie scan -/

theorem scanLoop_cons (mem : Nat → Nat) (s0 : Option DexFile) (rest : List (Option DexFile)) :
    ∀ (n : Nat) (acc : List Span), n ≤ rest.length →
      scanLoop mem (s0 :: rest) (n + 1) acc = some (scanSlots mem (rest.take n).reverse acc)
  | 0, acc, _ => by simp [scanLoop, scanSlots]
  | n + 1, acc, h => by
    have hn : n < rest.length := h
    have ht : (rest.take (n + 1)).reverse = rest[n] :: (rest.take n).reverse := by
      rw [List.take_succ, List.getElem?_eq_getElem hn]
      simp
    have ih := scanLoop_cons mem s0 rest n
    rw [ht]
    rw [scanLoop]
    simp only [List.getElem?_cons_succ, List.getElem?_eq_getElem hn]
    cases hx : rest[n] with
    | none => simp [scanSlots, ih [] (Nat.le_of_lt hn)]
    | some d =>
      by_cases hd : IsDexFile mem d.begin_ = true
      · simp [scanSlots, hd, ih _ (Nat.le_of_lt hn)]
      · simp [scanSlots, hd]

theorem scanCookie_nil (mem : Nat → Nat) : scanCookie mem [] = none := by
  simp [scanCookie]

theorem scanCookie_sentinel (mem : Nat → Nat) (p : DexFile) (rest : List (Option DexFile)) :
    scanCookie mem (some p :: rest) = some [] := by
  simp [scanCookie]

theorem scanCookie_null (mem : Nat → Nat) (rest : List (Option DexFile)) :
    scanCookie mem (none :: rest) = some (scanSlots mem rest.reverse []) := by
  have h := scanLoop_cons mem none rest rest.length [] (Nat.le_refl _)
  simpa [scanCookie] using h

/-- With at least one entry the scan returns: it never reads past the end. -/
theorem scanCookie_isSome (mem : Nat → Nat) (cookie : List (Option DexFile))
    (h : 1 ≤ cookie.length) : (scanCookie mem cookie).isSome = true := by
  match cookie, h with
  | none :: rest, _ => simp [scanCookie_null]
  | some p :: rest, _ => simp [scanCookie_sentinel]

theorem scanSlots_standard (mem : Nat → Nat) :
    ∀ (slots : List (Option DexFile)) (acc : List Span),
      (∀ s ∈ slots, ∃ d, s = some d ∧ IsDexFile mem d.begin_ = true) →
      scanSlots mem slots acc = acc ++ slots.filterMap (Option.map toSpan)
  | [], acc, _ => by simp [scanSlots]
  | s :: slots, acc, h => by
    obtain ⟨d, rfl, hd⟩ := h s (List.mem_cons_self _ _)
    have ih := scanSlots_standard mem slots (acc ++ [(d.begin_, d.size_)])
      (fun s hs => h s (List.mem_cons_of_mem _ hs))
    simp [scanSlots, hd, ih, toSpan]

theorem scanSlots_taint (mem : Nat → Nat) :
    ∀ (slots : List (Option DexFile)) (acc : List Span) (d : DexFile),
      some d ∈ slots → IsDexFile mem d.begin_ = false → scanSlots mem slots acc = []
  | [], _, _, hm, _ => by simp at hm
  | none :: slots, acc, d, hm, hd => by
    have hm2 : some d ∈ slots := by simpa using hm
    simpa [scanSlots] using scanSlots_taint mem slots [] d hm2 hd
  | some e :: slots, acc, d, hm, hd => by
    by_cases he : IsDexFile mem e.begin_ = true
    · have hm2 : some d ∈ slots := by
        rcases List.mem_cons.mp hm with h | h
        · have : d = e := by simpa using h
          subst this
          simp [he] at hd
        · exact h
      simpa [scanSlots, he] using scanSlots_taint mem slots _ d hm2 hd
    · simp [scanSlots, he]

theorem scanSlots_null (mem : Nat → Nat) :
    ∀ (above below : List (Option DexFile)) (acc : List Span),
      (∀ d, some d ∈ above → IsDexFile mem d.begin_ = true) →
      scanSlots mem (above ++ none :: below) acc = scanSlots mem below []
  | [], below, acc, _ => by simp [scanSlots]
  | none :: above, below, acc, h => by
    have ih := scanSlots_null mem above below []
      (fun d hd => h d (List.mem_cons_of_mem _ hd))
    simpa [scanSlots] using ih
  | some e :: above, below, acc, h => by
    have he : IsDexFile mem e.begin_ = true := h e (List.mem_cons_self _ _)
    have ih := scanSlots_null mem above below (acc ++ [(e.begin_, e.size_)])
      (fun d hd => h d (List.mem_cons_of_mem _ hd))
    simpa [scanSlots, he] using ih

theorem scanCookie_standard (mem : Nat → Nat) (cookie : List (Option DexFile))
    (h0 : cookie[0]? = some none)
    (h : ∀ i, 1 ≤ i → i < cookie.length →
      ∃ d, cookie[i]? = some (some d) ∧ IsDexFile mem d.begin_ = true) :
    scanCookie mem cookie = some (spansBelow cookie cookie.length) := by
  match cookie, h0, h with
  | [], h0, _ => simp at h0
  | some p :: rest, h0, _ => simp at h0
  | none :: rest, _, h =>
    have hall : ∀ s ∈ rest.reverse, ∃ d, s = some d ∧ IsDexFile mem d.begin_ = true := by
      intro s hs
      rw [List.mem_reverse, List.mem_iff_getElem?] at hs
      obtain ⟨n, hn⟩ := hs
      have hlt : n < rest.length := (List.getElem?_eq_some.mp hn).1
      obtain ⟨d, hd, hstd⟩ := h (n + 1) (by omega) (by simp; omega)
      rw [List.getElem?_cons_succ, hn] at hd
      exact ⟨d, by simpa using hd, hstd⟩
    rw [scanCookie_null, scanSlots_standard mem _ _ hall]
    simp [spansBelow]

theorem scanCookie_taint (mem : Nat → Nat) (cookie : List (Option DexFile)) (k : Nat)
    (d : DexFile) (hk : 1 ≤ k) (hd : cookie[k]? = some (some d))
    (hbad : IsDexFile mem d.begin_ = false) :
    scanCookie mem cookie = some [] := by
  match cookie, hd with
  | [], hd => simp at hd
  | some p :: rest, _ => exact scanCookie_sentinel mem p rest
  | none :: rest, hd =>
    obtain ⟨j, rfl⟩ : ∃ j, k = j + 1 := ⟨k - 1, by omega⟩
    rw [List.getElem?_cons_succ] at hd
    have hm : some d ∈ rest.reverse := by
      rw [List.mem_reverse, List.mem_iff_getElem?]
      exact ⟨j, hd⟩
    rw [scanCookie_null, scanSlots_taint mem _ _ d hm hbad]

theorem scanCookie_midnull (mem : Nat → Nat) (cookie : List (Option DexFile)) (m : Nat)
    (h0 : cookie[0]? = some none) (hm1 : 1 ≤ m) (hm : cookie[m]? = some none)
    (hlow : ∀ i, 1 ≤ i → i < m → cookie[i]? ≠ some none)
    (hstd : ∀ i d, 1 ≤ i → cookie[i]? = some (some d) → IsDexFile mem d.begin_ = true) :
    scanCookie mem cookie = some (spansBelow cookie m) := by
  match cookie, h0, hm, hlow, hstd with
  | [], h0, _, _, _ => simp at h0
  | some p :: rest, h0, _, _, _ => simp at h0
  | none :: rest, _, hm, hlow, hstd =>
    obtain ⟨k, rfl⟩ : ∃ k, m = k + 1 := ⟨m - 1, by omega⟩
    rw [List.getElem?_cons_succ] at hm
    obtain ⟨hk, hkv⟩ := List.getElem?_eq_some.mp hm
    have hsplit : rest = rest.take k ++ none :: rest.drop (k + 1) := by
      conv_lhs => rw [← List.take_append_drop k rest, List.drop_eq_getElem_cons hk, hkv]
    have hrev : rest.reverse =
        (rest.drop (k + 1)).reverse ++ none :: (rest.take k).reverse := by
      conv_lhs => rw [hsplit]
      simp
    have habove : ∀ d, some d ∈ (rest.drop (k + 1)).reverse →
        IsDexFile mem d.begin_ = true := by
      intro d hd
      rw [List.mem_reverse] at hd
      have hd2 : some d ∈ rest := List.mem_of_mem_drop hd
      obtain ⟨n, hn⟩ := List.mem_iff_getElem?.mp hd2
      exact hstd (n + 1) d (by omega) (by rw [List.getElem?_cons_succ, hn])
    have hbelow : ∀ s ∈ (rest.take k).reverse,
        ∃ d, s = some d ∧ IsDexFile mem d.begin_ = true := by
      intro s hs
      rw [List.mem_reverse] at hs
      obtain ⟨n, hn⟩ := List.mem_iff_getElem?.mp hs
      have hnk : n < k := by
        have := (List.getElem?_eq_some.mp hn).1
        simp at this
        omega
      have hn2 : rest[n]? = some s := by
        rw [List.getElem?_take_of_lt hnk] at hn
        exact hn
      have hc : (none :: rest)[n + 1]? = some s := by
        rw [List.getElem?_cons_succ, hn2]
      cases s with
      | none => exact absurd hc (hlow (n + 1) (by omega) (by omega))
      | some d => exact ⟨d, rfl, hstd (n + 1) d (by omega) hc⟩
    rw [scanCookie_null, hrev, scanSlots_null mem _ _ _ habove,
      scanSlots_standard mem _ _ hbelow]
    simp [spansBelow]

/-! ## Lemmas on the walk -/

theorem processElement_scan (size_bits : Nat) (mem : Nat → Nat) (st : WalkState)
    (jdf : JavaDexFile) (cookie : List (Option DexFile)) (imgs : List Span)
    (hc : jdf.mCookie = some cookie) (hs : scanCookie mem cookie = some imgs) :
    ∃ st', processElement size_bits mem st (some { dexFile := some jdf }) = some st' ∧
      st'.images = st.images ++ imgs := by
  unfold processElement
  simp only [hc, hs]
  by_cases hi : imgs = []
  · subst hi
    by_cases ha : st.apk_path = []
    · cases hf : jdf.mFileName with
      | none => simp [ha]
      | some path =>
        by_cases ht : apkTest size_bits path = true <;> simp [ha, ht]
    · simp [ha]
  · simp [hi]

theorem cookieOf_eq (jdf : JavaDexFile) (cookie : List (Option DexFile))
    (hc : jdf.mCookie = some cookie) :
    cookieOf (some { dexFile := some jdf }) = cookie := by
  cases jdf with
  | mk c f =>
    simp only at hc
    subst hc
    rfl

theorem walk_standard (size_bits : Nat) (mem : Nat → Nat) :
    ∀ (elements : List (Option Element)) (st : WalkState),
      (∀ e ∈ elements, ∃ jdf cookie, e = some { dexFile := some jdf } ∧
        jdf.mCookie = some cookie ∧ cookie[0]? = some none ∧
        ∀ i, 1 ≤ i → i < cookie.length →
          ∃ d, cookie[i]? = some (some d) ∧ IsDexFile mem d.begin_ = true) →
      ∃ st', walk size_bits mem elements st = some st' ∧
        st'.images = st.images ++
          (elements.map fun e => spansBelow (cookieOf e) (cookieOf e).length).flatten
  | [], st, _ => ⟨st, by simp [walk]⟩
  | e :: rest, st, h => by
    obtain ⟨jdf, cookie, rfl, hc, h0, hs⟩ := h e (List.mem_cons_self _ _)
    obtain ⟨st1, hp, hi⟩ := processElement_scan size_bits mem st jdf cookie _ hc
      (scanCookie_standard mem cookie h0 hs)
    obtain ⟨st2, hw, hi2⟩ := walk_standard size_bits mem rest st1
      (fun e he => h e (List.mem_cons_of_mem _ he))
    refine ⟨st2, ?_, ?_⟩
    · simp [walk, hp, hw]
    · rw [hi2, hi]
      simp [cookieOf_eq jdf cookie hc]

/-! ## Image order -/

/-- C1. For every element list in which each element has a non-null dex file
and a cookie whose entry 0 is null and whose entries 1..N-1 are all non-null
descriptors of standard DEX images, the walk ends with `images` equal to the
concatenation, in element order, of each element's spans from slot N-1 down
to slot 1; the entry point returns, and when that list is non-empty the engine
is constructed from exactly that list. -/
theorem image_order (size_bits : Nat) (mem : Nat → Nat) (env : Env) (g : Globals)
    (elements : List (Option Element))
    (h : ∀ e ∈ elements, ∃ jdf cookie, e = some { dexFile := some jdf } ∧
      jdf.mCookie = some cookie ∧ cookie[0]? = some none ∧
      ∀ i, 1 ≤ i → i < cookie.length →
        ∃ d, cookie[i]? = some (some d) ∧ IsDexFile mem d.begin_ = true) :
    ∃ st out, walk size_bits mem elements WalkState.initial = some st ∧
      st.images =
        (elements.map fun e => spansBelow (cookieOf e) (cookieOf e).length).flatten ∧
      Java_io_luckypray_dexkit_DexKitBridge_nativeInitDexKitByClassLoader size_bits mem env g (loaderOf elements) = some out ∧
      (st.images ≠ [] → out.handle = some (Engine.fromImages st.images)) := by
  obtain ⟨st, hw, hi⟩ := walk_standard size_bits mem elements WalkState.initial h
  refine ⟨st, ⟨dispatch st.images st.apk_path, init env g, st.array_views,
    st.string_views⟩, hw, ?_, ?_, ?_⟩
  · simpa [WalkState.initial] using hi
  · simp only [Java_io_luckypray_dexkit_DexKitBridge_nativeInitDexKitByClassLoader, loaderOf, hw]
  · intro hne
    simp [dispatch, hne]

/-- C1 at cookies `[0, &D1, &D2]` and `[0, &D3]`: the images are `[D2, D1, D3]`. -/
theorem image_order_witness :
    (∃ st out,
      walk 64 exampleMem
          [elementOf [none, some D1, some D2] none, elementOf [none, some D3] none]
          WalkState.initial = some st ∧
        st.images = [toSpan D2, toSpan D1, toSpan D3] ∧
        Java_io_luckypray_dexkit_DexKitBridge_nativeInitDexKitByClassLoader 64 exampleMem envOk Globals.initial
          (loaderOf [elementOf [none, some D1, some D2] none,
            elementOf [none, some D3] none]) = some out ∧
        (st.images ≠ [] → out.handle = some (Engine.fromImages st.images))) ∧
    walk 64 exampleMem
        [elementOf [none, some D1, some D2] none, elementOf [none, some D3] none]
        WalkState.initial =
      some { images := [(2000, 22), (1000, 11), (3000, 33)], apk_path := [],
             array_views := 2, string_views := 0 } := by
  refine ⟨?_, by decide⟩
  have key := image_order 64 exampleMem envOk Globals.initial
    [elementOf [none, some D1, some D2] none, elementOf [none, some D3] none]
    (by
      intro e he
      simp only [List.mem_cons, List.mem_singleton, List.not_mem_nil, or_false] at he
      rcases he with rfl | rfl
      · refine ⟨_, _, rfl, rfl, rfl, ?_⟩
        intro i h1 h2
        have h3 : i = 1 ∨ i = 2 := by simp at h2; omega
        rcases h3 with rfl | rfl
        · exact ⟨D1, rfl, by decide⟩
        · exact ⟨D2, rfl, by decide⟩
      · refine ⟨_, _, rfl, rfl, rfl, ?_⟩
        intro i h1 h2
        have h3 : i = 1 := by simp at h2; omega
        subst h3
        exact ⟨D3, rfl, by decide⟩)
  exact key

/-! ## Compact taint -/

/-- C2. If some slot k >= 1 of an element's cookie holds a non-null descriptor
whose image is not a standard DEX, processing the element returns and leaves
`images` as it was, whatever the other slots (entry 0 included) hold. -/
theorem compact_taint (size_bits : Nat) (mem : Nat → Nat) (st : WalkState)
    (jdf : JavaDexFile) (cookie : List (Option DexFile)) (k : Nat) (d : DexFile)
    (hc : jdf.mCookie = some cookie) (hk : 1 ≤ k) (hd : cookie[k]? = some (some d))
    (hbad : IsDexFile mem d.begin_ = false) :
    scanCookie mem cookie = some [] ∧
    ∃ st', processElement size_bits mem st (some { dexFile := some jdf }) = some st' ∧
      st'.images = st.images := by
  have hs := scanCookie_taint mem cookie k d hk hd hbad
  obtain ⟨st1, hp, hi⟩ := processElement_scan size_bits mem st jdf cookie _ hc hs
  exact ⟨hs, st1, hp, by simpa using hi⟩

/-- C2 at cookie `[0, &D1, &Dc, null, &D2]` with two images already collected. -/
theorem compact_taint_witness :
    (scanCookie exampleMem [none, some D1, some Dc, none, some D2] = some [] ∧
      ∃ st', processElement 64 exampleMem
          { images := [(3000, 33)], apk_path := [], array_views := 0, string_views := 0 }
          (elementOf [none, some D1, some Dc, none, some D2] none) = some st' ∧
        st'.images = [(3000, 33)]) :=
  compact_taint 64 exampleMem
    { images := [(3000, 33)], apk_path := [], array_views := 0, string_views := 0 }
    { mCookie := some [none, some D1, some Dc, none, some D2], mFileName := none }
    [none, some D1, some Dc, none, some D2] 2 Dc rfl (by decide) rfl (by decide)

/-! ## Mid-null: clear and continue -/

/-- C3. For a cookie whose entry 0 is null and whose non-null entries from 1 on
are all standard DEX descriptors, if m is the lowest index >= 1 holding a null,
the scan yields exactly the spans of slots m-1 down to 1, highest first, and
processing the element appends exactly those to `images`. -/
theorem mid_null (size_bits : Nat) (mem : Nat → Nat) (st : WalkState)
    (jdf : JavaDexFile) (cookie : List (Option DexFile)) (m : Nat)
    (hc : jdf.mCookie = some cookie) (h0 : cookie[0]? = some none)
    (hm1 : 1 ≤ m) (hm : cookie[m]? = some none)
    (hlow : ∀ i, 1 ≤ i → i < m → cookie[i]? ≠ some none)
    (hstd : ∀ i d, 1 ≤ i → cookie[i]? = some (some d) → IsDexFile mem d.begin_ = true) :
    scanCookie mem cookie = some (spansBelow cookie m) ∧
    ∃ st', processElement size_bits mem st (some { dexFile := some jdf }) = some st' ∧
      st'.images = st.images ++ spansBelow cookie m := by
  have hs := scanCookie_midnull mem cookie m h0 hm1 hm hlow hstd
  obtain ⟨st1, hp, hi⟩ := processElement_scan size_bits mem st jdf cookie _ hc hs
  exact ⟨hs, st1, hp, hi⟩

/-- C3 at cookie `[0, &D1, null, &D2]`: the element contributes `[D1]`. -/
theorem mid_null_witness :
    (scanCookie exampleMem [none, some D1, none, some D2] =
        some (spansBelow [none, some D1, none, some D2] 2) ∧
      ∃ st', processElement 64 exampleMem WalkState.initial
          (elementOf [none, some D1, none, some D2] none) = some st' ∧
        st'.images = WalkState.initial.images ++
          spansBelow [none, some D1, none, some D2] 2) ∧
    spansBelow [none, some D1, none, some D2] 2 = [toSpan D1] :=
  ⟨mid_null 64 exampleMem WalkState.initial
    { mCookie := some [none, some D1, none, some D2], mFileName := none }
    [none, some D1, none, some D2] 2 rfl rfl (by decide) rfl
    (by
      intro i h1 h2
      have h3 : i = 1 := by omega
      subst h3
      decide)
    (by
      intro i d h1 hd
      have h4 : i < 4 := by
        have := (List.getElem?_eq_some.mp hd).1
        simpa using this
      have h3 : i = 1 ∨ i = 2 ∨ i = 3 := by omega
      rcases h3 with rfl | rfl | rfl
      · have : d = D1 := by simpa using hd.symm
        subst this
        decide
      · simp at hd
      · have : d = D2 := by simpa using hd.symm
        subst this
        decide),
   by decide⟩

/-! ## Sentinel gate -/

/-- C7. If entry 0 of an element's cookie is non-null, processing the element
returns and leaves `images` unchanged whatever entries 1..N-1 hold; and the
element is still harvested for the APK path: when `apk_path` was empty and the
element's file name passes the test of line 129, `apk_path` becomes that name. -/
theorem sentinel_gate (size_bits : Nat) (mem : Nat → Nat) (st : WalkState)
    (jdf : JavaDexFile) (cookie : List (Option DexFile)) (p : DexFile)
    (hc : jdf.mCookie = some cookie) (h0 : cookie[0]? = some (some p)) :
    scanCookie mem cookie = some [] ∧
    ∃ st', processElement size_bits mem st (some { dexFile := some jdf }) = some st' ∧
      st'.images = st.images ∧
      (st.apk_path = [] → ∀ path, jdf.mFileName = some path →
        apkTest size_bits path = true → st'.apk_path = path) := by
  have hs : scanCookie mem cookie = some [] := by
    match cookie, h0 with
    | [], h0 => simp at h0
    | none :: rest, h0 => simp at h0
    | some q :: rest, _ => exact scanCookie_sentinel mem q rest
  refine ⟨hs, ?_⟩
  unfold processElement
  simp only [hc, hs]
  by_cases ha : st.apk_path = []
  · cases hf : jdf.mFileName with
    | none => simp [ha]
    | some path =>
      by_cases ht : apkTest size_bits path = true
      · simp [ha, ht]
      · simp [ha, ht]
  · simp [ha]

/-- C7 at cookie `[&OAT, &D1, &D2]` with file name `/x.apk`. -/
theorem sentinel_gate_witness :
    scanCookie exampleMem [some D3, some D1, some D2] = some [] ∧
    ∃ st', processElement 64 exampleMem WalkState.initial
        (elementOf [some D3, some D1, some D2] (some ['/', 'x', '.', 'a', 'p', 'k'])) =
          some st' ∧
      st'.images = WalkState.initial.images ∧
      (WalkState.initial.apk_path = [] → ∀ path,
        (some ['/', 'x', '.', 'a', 'p', 'k'] : Option (List Char)) = some path →
        apkTest 64 path = true → st'.apk_path = path) :=
  sentinel_gate 64 exampleMem WalkState.initial
    { mCookie := some [some D3, some D1, some D2],
      mFileName := some ['/', 'x', '.', 'a', 'p', 'k'] }
    [some D3, some D1, some D2] D3 rfl rfl

/-! ## Construction dispatch -/

theorem nativeInit_of_walk (size_bits : Nat) (mem : Nat → Nat) (env : Env) (g : Globals)
    (elements : List (Option Element)) (st : WalkState)
    (hw : walk size_bits mem elements WalkState.initial = some st) :
    Java_io_luckypray_dexkit_DexKitBridge_nativeInitDexKitByClassLoader size_bits mem env g (loaderOf elements) =
      some ⟨dispatch st.images st.apk_path, init env g, st.array_views, st.string_views⟩ := by
  simp only [Java_io_luckypray_dexkit_DexKitBridge_nativeInitDexKitByClassLoader, loaderOf, hw]

/-- C5. The entry point returns the handle `dispatch images apk_path` for the
walk result; with `images` non-empty the engine is built from `images` and
not from any path, even when `apk_path` is non-empty; with `images` empty and
`apk_path` non-empty it is built from `apk_path`; and the handle is zero
exactly when both are empty. -/
theorem construction_dispatch (size_bits : Nat) (mem : Nat → Nat) (env : Env)
    (g : Globals) (elements : List (Option Element)) (st : WalkState)
    (hw : walk size_bits mem elements WalkState.initial = some st)
    (images : List Span) (apk_path : List Char) :
    (∃ out, Java_io_luckypray_dexkit_DexKitBridge_nativeInitDexKitByClassLoader size_bits mem env g (loaderOf elements) =
        some out ∧ out.handle = dispatch st.images st.apk_path) ∧
    (images ≠ [] → dispatch images apk_path = some (Engine.fromImages images) ∧
      ∀ p, dispatch images apk_path ≠ some (Engine.fromPath p)) ∧
    (images = [] → apk_path ≠ [] →
      dispatch images apk_path = some (Engine.fromPath apk_path)) ∧
    (dispatch images apk_path = none ↔ images = [] ∧ apk_path = []) := by
  refine ⟨⟨_, nativeInit_of_walk size_bits mem env g elements st hw, rfl⟩, ?_, ?_, ?_⟩
  · intro h
    simp [dispatch, h]
  · intro h h2
    simp [dispatch, h, h2]
  · by_cases h : images = [] <;> by_cases h2 : apk_path = [] <;> simp [dispatch, h, h2]

/-- C5 where an image and an `.apk` name were both collected: the engine is
built from the image. -/
theorem construction_dispatch_witness :
    walk 64 exampleMem
        [elementOf [none, some D1] none,
          elementOf [some D2] (some ['/', 'x', '.', 'a', 'p', 'k'])]
        WalkState.initial =
      some ⟨[(1000, 11)], ['/', 'x', '.', 'a', 'p', 'k'], 2, 0⟩ ∧
    ((∃ out, Java_io_luckypray_dexkit_DexKitBridge_nativeInitDexKitByClassLoader 64 exampleMem envOk Globals.initial
          (loaderOf [elementOf [none, some D1] none,
            elementOf [some D2] (some ['/', 'x', '.', 'a', 'p', 'k'])]) = some out ∧
        out.handle = dispatch [(1000, 11)] ['/', 'x', '.', 'a', 'p', 'k']) ∧
      (([(1000, 11)] : List Span) ≠ [] →
        dispatch [(1000, 11)] ['/', 'x', '.', 'a', 'p', 'k'] =
            some (Engine.fromImages [(1000, 11)]) ∧
          ∀ p, dispatch [(1000, 11)] ['/', 'x', '.', 'a', 'p', 'k'] ≠
            some (Engine.fromPath p)) ∧
      (([(1000, 11)] : List Span) = [] → ['/', 'x', '.', 'a', 'p', 'k'] ≠ [] →
        dispatch [(1000, 11)] ['/', 'x', '.', 'a', 'p', 'k'] =
          some (Engine.fromPath ['/', 'x', '.', 'a', 'p', 'k'])) ∧
      (dispatch [(1000, 11)] ['/', 'x', '.', 'a', 'p', 'k'] = none ↔
        ([(1000, 11)] : List Span) = [] ∧ ['/', 'x', '.', 'a', 'p', 'k'] = [])) :=
  ⟨by decide,
   construction_dispatch 64 exampleMem envOk Globals.initial
    [elementOf [none, some D1] none,
      elementOf [some D2] (some ['/', 'x', '.', 'a', 'p', 'k'])]
    ⟨[(1000, 11)], ['/', 'x', '.', 'a', 'p', 'k'], 2, 0⟩ (by decide)
    [(1000, 11)] ['/', 'x', '.', 'a', 'p', 'k']⟩

/-! ## When the APK path is recorded -/

/-- C6, as stated, fails. After element A (cookie `[0, &D1]`) has put `D1`
into `images`, element B (cookie `[&OAT]`, file name `/x.apk`) still records
`apk_path`, so `apk_path` is recorded at a moment when `images` is not empty. -/
theorem apk_recorded_counterexample :
    walk 64 exampleMem [elementOf [none, some D1] none] WalkState.initial =
      some ⟨[(1000, 11)], [], 1, 0⟩ ∧
    processElement 64 exampleMem ⟨[(1000, 11)], [], 1, 0⟩
        (elementOf [some D2] (some ['/', 'x', '.', 'a', 'p', 'k'])) =
      some ⟨[(1000, 11)], ['/', 'x', '.', 'a', 'p', 'k'], 2, 0⟩ ∧
    ¬ (∀ (earlier : List (Option Element)) (e : Option Element) (st st' : WalkState),
        walk 64 exampleMem earlier WalkState.initial = some st →
        processElement 64 exampleMem st e = some st' →
        st'.apk_path ≠ st.apk_path → st.images = []) := by
  refine ⟨by decide, by decide, ?_⟩
  intro h
  have h2 := h [elementOf [none, some D1] none]
    (elementOf [some D2] (some ['/', 'x', '.', 'a', 'p', 'k']))
    ⟨[(1000, 11)], [], 1, 0⟩ ⟨[(1000, 11)], ['/', 'x', '.', 'a', 'p', 'k'], 2, 0⟩
    (by decide) (by decide) (by decide)
  exact absurd h2 (by decide)

/-- C6, amended. Whenever processing an element changes `apk_path`, then at
that moment `apk_path` was empty and the element's own scratch `dex_images`
was empty (its cookie scan yielded nothing); the step leaves `images`
unchanged, and the recorded value is the element's file name, which passed
the test of line 129. Nothing is required of `images`. -/
theorem apk_recorded_on_empty_scratch (size_bits : Nat) (mem : Nat → Nat)
    (st st' : WalkState) (e : Option Element)
    (hp : processElement size_bits mem st e = some st')
    (hne : st'.apk_path ≠ st.apk_path) :
    st.apk_path = [] ∧ st'.images = st.images ∧
    ∃ jdf cookie, e = some { dexFile := some jdf } ∧ jdf.mCookie = some cookie ∧
      scanCookie mem cookie = some [] ∧ jdf.mFileName = some st'.apk_path ∧
      apkTest size_bits st'.apk_path = true := by
  match e, hp with
  | none, hp =>
    simp [processElement] at hp
    subst hp
    exact absurd rfl hne
  | some ⟨none⟩, hp =>
    simp [processElement] at hp
    subst hp
    exact absurd rfl hne
  | some ⟨some ⟨none, f⟩⟩, hp =>
    simp [processElement] at hp
    subst hp
    exact absurd rfl hne
  | some ⟨some ⟨some cookie, f⟩⟩, hp =>
    simp only [processElement] at hp
    cases hs : scanCookie mem cookie with
    | none => simp [hs] at hp
    | some imgs =>
      simp only [hs] at hp
      by_cases hi : imgs = []
      · subst hi
        by_cases ha : st.apk_path = []
        · cases f with
          | none =>
            simp [ha] at hp
            subst hp
            exact absurd ha.symm hne
          | some path =>
            by_cases ht : apkTest size_bits path = true
            · simp [ha, ht] at hp
              subst hp
              exact ⟨ha, rfl, _, _, rfl, rfl, hs, rfl, ht⟩
            · simp [ha, ht] at hp
              subst hp
              exact absurd ha.symm hne
        · simp [ha] at hp
          subst hp
          exact absurd rfl hne
      · simp [hi] at hp
        subst hp
        exact absurd rfl hne

/-- C6 amended, at the state after element A and element B of the
counterexample. -/
theorem apk_recorded_on_empty_scratch_witness :
    processElement 64 exampleMem ⟨[(1000, 11)], [], 1, 0⟩
        (elementOf [some D2] (some ['/', 'x', '.', 'a', 'p', 'k'])) =
      some ⟨[(1000, 11)], ['/', 'x', '.', 'a', 'p', 'k'], 2, 0⟩ ∧
    (['/', 'x', '.', 'a', 'p', 'k'] : List Char) ≠ [] ∧
    (([] : List Char) = [] ∧ ([(1000, 11)] : List Span) = [(1000, 11)] ∧
      ∃ jdf cookie,
        elementOf [some D2] (some ['/', 'x', '.', 'a', 'p', 'k']) =
          some { dexFile := some jdf } ∧
        jdf.mCookie = some cookie ∧ scanCookie exampleMem cookie = some [] ∧
        jdf.mFileName = some ['/', 'x', '.', 'a', 'p', 'k'] ∧
        apkTest 64 ['/', 'x', '.', 'a', 'p', 'k'] = true) :=
  ⟨by decide, by decide,
   apk_recorded_on_empty_scratch 64 exampleMem ⟨[(1000, 11)], [], 1, 0⟩
    ⟨[(1000, 11)], ['/', 'x', '.', 'a', 'p', 'k'], 2, 0⟩
    (elementOf [some D2] (some ['/', 'x', '.', 'a', 'p', 'k']))
    (by decide) (by decide)⟩

/-! ## Write-once field cache -/

theorem init_of_initialized (env : Env) (g : Globals) (h : g.is_initialized = true) :
    init env g = g := by
  simp [init, h]

theorem init_is_initialized (env : Env) (g : Globals) :
    (init env g).is_initialized = true := by
  unfold init
  split
  · assumption
  · rfl

theorem init_lookups_le (env : Env) (g : Globals) :
    (init env g).lookups ≤ g.lookups + 9 := by
  unfold init
  split
  · omega
  · simp

theorem initCalls_of_initialized :
    ∀ (envs : List Env) (g : Globals), g.is_initialized = true → initCalls envs g = g
  | [], _, _ => rfl
  | env :: envs, g, h => by
    have ih := initCalls_of_initialized envs g h
    simpa [initCalls, init_of_initialized env g h] using ih

theorem nativeInit_globals (size_bits : Nat) (mem : Nat → Nat) (env : Env) (g : Globals)
    (class_loader : Option ClassLoader) (out : Outcome)
    (h : Java_io_luckypray_dexkit_DexKitBridge_nativeInitDexKitByClassLoader size_bits mem env g class_loader = some out) :
    out.globals = if class_loader.isSome then init env g else g := by
  unfold Java_io_luckypray_dexkit_DexKitBridge_nativeInitDexKitByClassLoader at h
  split at h
  · simp at h
    subst h
    rfl
  · split at h
    · simp at h
      subst h
      rfl
    · split at h
      · simp at h
        subst h
        rfl
      · split at h
        · simp at h
        · simp at h
          subst h
          rfl

/-- C9. In a state with `is_initialized = true`, `init` returns the state
unchanged: the five handles, the flag and the lookup counter are as before, so
no `FindClass` or `GetFieldID` call was made. Hence after one `init` call any
further calls, with any runtimes, leave the statics equal to what that first
call stored; a whole run of `init` calls makes at most the nine lookups of one
resolution; and a construction call changes the statics only through `init`. -/
theorem write_once_cache (env : Env) (envs : List Env) (g : Globals) :
    (g.is_initialized = true → init env g = g) ∧
    initCalls envs (init env g) = init env g ∧
    (initCalls envs g).lookups ≤ g.lookups + 9 ∧
    (∀ size_bits mem class_loader out,
      Java_io_luckypray_dexkit_DexKitBridge_nativeInitDexKitByClassLoader size_bits mem env g class_loader = some out →
      out.globals = if class_loader.isSome then init env g else g) := by
  refine ⟨init_of_initialized env g, ?_, ?_, ?_⟩
  · exact initCalls_of_initialized envs _ (init_is_initialized env g)
  · cases envs with
    | nil => simp [initCalls]
    | cons e es =>
      have h1 : initCalls (e :: es) g = initCalls es (init e g) := rfl
      rw [h1, initCalls_of_initialized es _ (init_is_initialized e g)]
      exact init_lookups_le e g
  · intro size_bits mem class_loader out h
    exact nativeInit_globals size_bits mem env g class_loader out h

/-- C9 on a runtime whose lookups all fail, called after a first successful
initialisation: the handles stored by the first call stay. -/
theorem write_once_cache_witness :
    ((init envOk Globals.initial).is_initialized = true →
      init envFail (init envOk Globals.initial) = init envOk Globals.initial) ∧
    initCalls [envFail, envOk] (init envFail (init envOk Globals.initial)) =
      init envFail (init envOk Globals.initial) ∧
    (initCalls [envFail, envOk] (init envOk Globals.initial)).lookups ≤
      (init envOk Globals.initial).lookups + 9 ∧
    (∀ size_bits mem class_loader out,
      Java_io_luckypray_dexkit_DexKitBridge_nativeInitDexKitByClassLoader size_bits mem envFail (init envOk Globals.initial)
        class_loader = some out →
      out.globals =
        if class_loader.isSome then init envFail (init envOk Globals.initial)
        else init envOk Globals.initial) :=
  write_once_cache envFail [envFail, envOk] (init envOk Globals.initial)

/-! ## The `.apk` suffix test -/

/-- Every three-character name passes the test of line 129 on a 64-bit
`size_t`: `find` gives `npos` and `3 - 4` wraps to the same value. -/
theorem apkTest_length_three (a b c : Char) : apkTest 64 [a, b, c] = true := by
  have hf : find 64 ['.', 'a', 'p', 'k'] [a, b, c] 0 = npos 64 := by
    simp [find, List.isPrefixOf]
  have hl : ([a, b, c] : List Char).length = 3 := rfl
  unfold apkTest
  rw [hf, hl]
  decide

/-- C4 fails on the code in both directions. The name `abc` does not end in
`.apk`, yet the test of line 129 accepts it (on 64-bit and on 32-bit `size_t`)
and the element records it as `apk_path`. The name
`/data/app/com.apkpure/base.apk` ends in `.apk`, yet the test rejects it,
because `find` reports the first occurrence of `.apk`, and `apk_path` stays
empty. -/
theorem apk_suffix_test_diverges :
    (endsWithApk ['a', 'b', 'c'] = false ∧
      find 64 ['.', 'a', 'p', 'k'] ['a', 'b', 'c'] 0 = 2 ^ 64 - 1 ∧
      size_sub 64 3 4 = 2 ^ 64 - 1 ∧
      apkTest 64 ['a', 'b', 'c'] = true ∧ apkTest 32 ['a', 'b', 'c'] = true ∧
      processElement 64 exampleMem WalkState.initial
          (elementOf [none] (some ['a', 'b', 'c'])) =
        some ⟨[], ['a', 'b', 'c'], 1, 0⟩) ∧
    (endsWithApk "/data/app/com.apkpure/base.apk".toList = true ∧
      find 64 ['.', 'a', 'p', 'k'] "/data/app/com.apkpure/base.apk".toList 0 = 13 ∧
      size_sub 64 "/data/app/com.apkpure/base.apk".toList.length 4 = 26 ∧
      apkTest 64 "/data/app/com.apkpure/base.apk".toList = false ∧
      apkTest 32 "/data/app/com.apkpure/base.apk".toList = false ∧
      processElement 64 exampleMem WalkState.initial
          (elementOf [none] (some "/data/app/com.apkpure/base.apk".toList)) =
        some ⟨[], [], 1, 0⟩) := by
  refine ⟨⟨?_, ?_, ?_, ?_, ?_, ?_⟩, ⟨?_, ?_, ?_, ?_, ?_, ?_⟩⟩ <;> decide

/-! ## JNI views -/

theorem processElement_views (size_bits : Nat) (mem : Nat → Nat) (st st' : WalkState)
    (e : Option Element) (hp : processElement size_bits mem st e = some st') :
    st'.string_views = st.string_views ∧
    st'.array_views = st.array_views + (if hasCookie e then 1 else 0) := by
  match e, hp with
  | none, hp =>
    simp [processElement] at hp
    subst hp
    simp [hasCookie]
  | some ⟨none⟩, hp =>
    simp [processElement] at hp
    subst hp
    simp [hasCookie]
  | some ⟨some ⟨none, f⟩⟩, hp =>
    simp [processElement] at hp
    subst hp
    simp [hasCookie]
  | some ⟨some ⟨some cookie, f⟩⟩, hp =>
    simp only [processElement] at hp
    cases hs : scanCookie mem cookie with
    | none => simp [hs] at hp
    | some imgs =>
      simp only [hs] at hp
      split at hp
      · cases f with
        | none =>
          simp at hp
          subst hp
          simp [hasCookie]
        | some path =>
          by_cases ht : apkTest size_bits path = true
          · simp [ht] at hp
            subst hp
            simp [hasCookie]
          · simp [ht] at hp
            subst hp
            simp [hasCookie]
      · simp at hp
        subst hp
        simp [hasCookie]

/-- When the walk returns, every string view has been released, and one array
view is outstanding for each element that reached `GetLongArrayElements`. -/
theorem walk_views (size_bits : Nat) (mem : Nat → Nat) :
    ∀ (elements : List (Option Element)) (st st' : WalkState),
      walk size_bits mem elements st = some st' →
      st'.string_views = st.string_views ∧
      st'.array_views = st.array_views + (elements.filter hasCookie).length
  | [], st, st', h => by
    simp [walk] at h
    subst h
    simp
  | e :: rest, st, st', h => by
    simp only [walk] at h
    cases hp : processElement size_bits mem st e with
    | none => simp [hp] at h
    | some st1 =>
      simp only [hp] at h
      obtain ⟨h1, h2⟩ := processElement_views size_bits mem st st1 e hp
      obtain ⟨h3, h4⟩ := walk_views size_bits mem rest st1 st' h
      refine ⟨by rw [h3, h1], ?_⟩
      rw [h4, h2]
      by_cases hc : hasCookie e = true
      · simp [List.filter, hc]
        omega
      · simp [List.filter, hc]

/-- C8 fails on the code. For a loader with the single element of cookie
`[0, &D1]` the entry point returns an engine built from `[D1]` while the view
taken by `GetLongArrayElements` at line 101 is still outstanding: the function
has no `ReleaseLongArrayElements` call. The string views are balanced. -/
theorem array_view_outstanding :
    Java_io_luckypray_dexkit_DexKitBridge_nativeInitDexKitByClassLoader 64 exampleMem envOk Globals.initial
        (loaderOf [elementOf [none, some D1] none]) =
      some ⟨some (Engine.fromImages [(1000, 11)]), init envOk Globals.initial, 1, 0⟩ ∧
    Java_io_luckypray_dexkit_DexKitBridge_nativeInitDexKitByClassLoader 64 exampleMem envOk Globals.initial
        (loaderOf [elementOf [some D1] (some ['/', 'x', '.', 'a', 'p', 'k'])]) =
      some ⟨some (Engine.fromPath ['/', 'x', '.', 'a', 'p', 'k']),
        init envOk Globals.initial, 1, 0⟩ := by
  constructor <;> decide

/-! ## Bounds of the cookie scan -/

/-- C10 fails on the code at N = 0. For an empty cookie the sentinel read
`dex_files[0]` of line 104 is outside the array: the scan, the element step
and the entry point have no defined result there. -/
theorem empty_cookie_sentinel_read :
    ([] : List (Option DexFile))[0]? = none ∧
    scanCookie exampleMem [] = none ∧
    processElement 64 exampleMem WalkState.initial (elementOf [] none) = none ∧
    Java_io_luckypray_dexkit_DexKitBridge_nativeInitDexKitByClassLoader 64 exampleMem envOk Globals.initial
      (loaderOf [elementOf [] none]) = none := by
  refine ⟨?_, ?_, ?_, ?_⟩ <;> decide

end DexKit
